import Mathlib

/-!
Verification of the vexa bot-orchestration subsystem: a shallow embedding of
the Nomad backend driver (`services/bot-manager/app/orchestrators/nomad.py`),
the shared Redis key helpers (`shared_models/redis_keys.py`) and the billing
plan limit (`shared_models/billing_models.py`), with theorems checking the
natural-language specification against this code.

Network I/O is modelled by passing the outcome of each HTTP call as an
explicit argument (an oracle); each driver operation additionally returns the
list of outbound backend calls it issued, so dispatch/no-dispatch behaviour
is part of the model.
-/

namespace Vexa

/-- Python `x or ""` on an optional string: `None` and `""` are falsy. -/
def pyOrEmpty : Option String → String
  | none => ""
  | some s => if s = "" then "" else s

/-- Python `s or ""` on a plain string: `""` is falsy (identity on strings). -/
def pyOrEmptyStr (s : String) : String := if s = "" then "" else s

/-- Python truthiness of an optional string: `None` and `""` are falsy. -/
def pyTruthy : Option String → Bool
  | none => false
  | some s => !(s == "")

/-- Python `a or b` on optional strings. -/
def pyOrOpt (a b : Option String) : Option String :=
  if pyTruthy a then a else b

/-- Parameters of `start_bot_container` (nomad.py lines 47-57). Optional
parameters are `Option String`; `user_token` is a plain `str` in the source. -/
structure StartRequest where
  user_id : Int
  meeting_id : Int
  meeting_url : Option String
  platform : String
  bot_name : Option String
  user_token : String
  native_meeting_id : String
  language : Option String
  task : Option String
deriving DecidableEq

/-- The metadata map built by `start_bot_container` (nomad.py lines 64-75),
in the source's insertion order. `connection_id` is the freshly generated
UUID string. -/
def buildMeta (req : StartRequest) (connection_id : String) :
    List (String × String) :=
  [ ("user_id", toString req.user_id),
    ("meeting_id", toString req.meeting_id),
    ("meeting_url", pyOrEmpty req.meeting_url),
    ("platform", req.platform),
    ("bot_name", pyOrEmpty req.bot_name),
    ("user_token", pyOrEmptyStr req.user_token),
    ("native_meeting_id", req.native_meeting_id),
    ("connection_id", connection_id),
    ("language", pyOrEmpty req.language),
    ("task", pyOrEmpty req.task) ]

/-- JSON body of a successful Nomad dispatch response: the two fields the
code reads with `data.get` (absent key gives `none`). -/
structure DispatchResponse where
  DispatchedJobID : Option String
  EvaluationID : Option String
deriving DecidableEq

/-- Outcome of the `POST /v1/job/{name}/dispatch` call in
`start_bot_container`. `statusError` models `raise_for_status` raising
`httpx.HTTPStatusError`; `transportError` models `httpx.HTTPError`
(timeouts, connection failures); `otherError` models any other exception
(e.g. JSON decoding). -/
inductive DispatchResult where
  | success (data : DispatchResponse)
  | statusError (code : Nat) (body : String)
  | transportError (msg : String)
  | otherError (msg : String)
deriving DecidableEq

/-- An outbound call from the driver to the Nomad backend. -/
inductive NomadCall where
  | dispatchJob (meta : List (String × String))
  | stopJob (job_id : String)
deriving DecidableEq

/-- `start_bot_container` (nomad.py lines 47-123). `freshUuid` is the value
of `str(uuid.uuid4())` at line 62; `fallbackUuid` the one at line 99 (used
only when the response carries no usable id); `post` is the outcome of the
single dispatch HTTP call for a given metadata map. Returns the Python
result pair (`(dispatched_id, connection_id)` on success, `(None, None)` on
any caught exception) together with the outbound calls issued. -/
def start_bot_container (req : StartRequest) (freshUuid fallbackUuid : String)
    (post : List (String × String) → DispatchResult) :
    (Option String × Option String) × List NomadCall :=
  let connection_id := freshUuid
  let meta := buildMeta req connection_id
  match post meta with
  | .success data =>
      let d := pyOrOpt data.DispatchedJobID data.EvaluationID
      let dispatched_id :=
        if pyTruthy d then d.getD "" else "unknown-" ++ fallbackUuid
      ((some dispatched_id, some connection_id), [NomadCall.dispatchJob meta])
  | _ => ((none, none), [NomadCall.dispatchJob meta])

/-- `stop_bot_container` (nomad.py lines 126-136): a stub that only logs and
returns `False`; it issues no call to the backend. -/
def stop_bot_container (container_id : String) : Bool × List NomadCall :=
  (false, [])

/-- `get_bot_command_channel` (redis_keys.py lines 35-37): the Redis Pub/Sub
channel for commands to one bot, `"bot_commands:" + connection_id`. -/
def get_bot_command_channel (connection_id : String) : String :=
  "bot_commands:" ++ connection_id

/-- `get_active_bots_key` (redis_keys.py lines 43-45): the Redis set key
tracking a user's active bots, `"active_bots:" + str(user_id)`. -/
def get_active_bots_key (user_id : Int) : String :=
  "active_bots:" ++ toString user_id

/-- One entry of the `GET /v1/jobs` response as the code reads it:
`job.get("ID", "")` and `job.get("Status", "")`. -/
structure NomadJobListEntry where
  ID : Option String
  Status : Option String
deriving DecidableEq

/-- One allocation of a job detail, read as `alloc.get("ClientStatus")`. -/
structure Allocation where
  ClientStatus : Option String
deriving DecidableEq

/-- JSON body of `GET /v1/job/{id}`, restricted to the fields the code
reads (`Status`, `Allocations`, `Meta`, `SubmitTime`), each with `.get`
semantics (absent key gives `none`). -/
structure NomadJobDetail where
  Status : Option String
  Allocations : Option (List Allocation)
  Meta : Option (List (String × String))
  SubmitTime : Option String
deriving DecidableEq

/-- Outcome of a `GET /v1/job/{id}` call. `success` is an HTTP 200 response
with a parsed body; `httpStatus` a non-200 response (the code does not call
`raise_for_status` here); `raised` any exception (transport error, JSON
decoding error). -/
inductive DetailFetch where
  | success (detail : NomadJobDetail)
  | httpStatus (code : Nat)
  | raised (msg : String)
deriving DecidableEq

/-- Outcome of the `GET /v1/jobs` listing call in `get_running_bots_status`:
`raise_for_status` turns a non-2xx response into `statusError`; transport
failures are `transportError`; any other exception is `otherError`. -/
inductive JobsResult where
  | success (jobs : List NomadJobListEntry)
  | statusError (code : Nat)
  | transportError (msg : String)
  | otherError (msg : String)
deriving DecidableEq

/-- Whether the jobs listing call failed (any of the three caught
exception classes). -/
def JobsResult.isFailure : JobsResult → Bool
  | .success _ => false
  | _ => true

/-- Python `meta.get(k, "")` over the job's `Meta` map, modelled as an
association list. -/
def metaGet (meta : List (String × String)) (k : String) : String :=
  match meta.find? (fun p => p.1 == k) with
  | some p => p.2
  | none => ""

/-- The allocations of a job detail whose `ClientStatus` is `"running"`
(nomad.py lines 178-183 and 242-246). -/
def runningAllocs (jd : NomadJobDetail) : List Allocation :=
  (jd.Allocations.getD []).filter (fun a => a.ClientStatus == some "running")

/-- The `bot_info` dict assembled by `get_running_bots_status`
(nomad.py lines 188-198): every field except `user_id` and the job id is
taken from the backend-stored job detail. -/
structure BotInfo where
  container_id : String
  connection_id : String
  meeting_id : String
  platform : String
  native_meeting_id : String
  bot_name : String
  status : String
  start_time : String
  user_id : Int
deriving DecidableEq

/-- Builds the `bot_info` dict for one running job from the backend-stored
job detail (nomad.py lines 186-198). -/
def mkBotInfo (user_id : Int) (job_id : String) (jd : NomadJobDetail) :
    BotInfo :=
  { container_id := job_id
    connection_id := metaGet (jd.Meta.getD []) "connection_id"
    meeting_id := metaGet (jd.Meta.getD []) "meeting_id"
    platform := metaGet (jd.Meta.getD []) "platform"
    native_meeting_id := metaGet (jd.Meta.getD []) "native_meeting_id"
    bot_name := metaGet (jd.Meta.getD []) "bot_name"
    status := "running"
    start_time := jd.SubmitTime.getD ""
    user_id := user_id }

/-- The per-job loop of `get_running_bots_status` (nomad.py lines 162-201):
skips jobs whose listed status is not `"running"`, fetches each remaining
job's detail (`dq`), silently skips a non-200 detail response, and keeps a
job only if it has at least one allocation with client status `"running"`.
Returns `none` when a detail fetch raises: the exception escapes the loop
to the outer handler. -/
def processJobs (user_id : Int) (dq : String → DetailFetch) :
    List NomadJobListEntry → Option (List BotInfo)
  | [] => some []
  | job :: rest =>
      if job.Status.getD "" ≠ "running" then processJobs user_id dq rest
      else
        match dq (job.ID.getD "") with
        | .raised _ => none
        | .httpStatus _ => processJobs user_id dq rest
        | .success jd =>
            if runningAllocs jd = [] then processJobs user_id dq rest
            else
              (processJobs user_id dq rest).map
                (fun bots => mkBotInfo user_id (job.ID.getD "") jd :: bots)

/-- `get_running_bots_status` (nomad.py lines 139-214). `jobs` is the
outcome of the listing call, `dq` the outcome of each per-job detail call.
Every caught exception — from the listing call or from inside the per-job
loop — yields the empty list. -/
def get_running_bots_status (user_id : Int) (jobs : JobsResult)
    (dq : String → DetailFetch) : List BotInfo :=
  match jobs with
  | .success js =>
      match processJobs user_id dq js with
      | some bots => bots
      | none => []
  | _ => []

/-- `verify_container_running` (nomad.py lines 217-261): `False` on any
exception, on a non-200 response, on a job whose status is not `"running"`,
and on a job with no running allocation; `True` otherwise. -/
def verify_container_running (r : DetailFetch) : Bool :=
  match r with
  | .raised _ => false
  | .httpStatus _ => false
  | .success jd =>
      if jd.Status.getD "" ≠ "running" then false
      else if runningAllocs jd = [] then false
      else true

/-- The `plans` row attributes the orchestrator reads
(billing_models.py lines 13-20). `max_concurrent_bots` is an `Integer`
column bounding a session count, modelled as `Nat`. -/
structure Plan where
  id : Int
  name : String
  max_concurrent_bots : Nat
  is_active : Bool

/-- Modelled from the spec: the Concurrency Gate's `reserveSlot` step. The
bot-manager's admission code is not among the sources (only its Redis key
helper `get_active_bots_key` and the plan column `max_concurrent_bots`
are). Per spec §4.2/§5, admission counts the user's `pending`+`running`
sessions and, as ONE atomic step, either reserves a slot (`some` of the new
count) or rejects with QuotaExceeded (`none`). -/
def reserveSlot (limit : Nat) (count : Nat) : Option Nat :=
  if count < limit then some (count + 1) else none

/-- Modelled from the spec: the operations that change a user's
pending+running session count — a `StartBot` admission attempt, or the
release of a slot when a session ends or dispatch fails. -/
inductive GateOp where
  | startBot
  | release
deriving DecidableEq

/-- Modelled from the spec: the effect of one atomic gate operation on the
user's session count. A rejected admission leaves the count unchanged. -/
def gateStep (limit count : Nat) : GateOp → Nat
  | .startBot => (reserveSlot limit count).getD count
  | .release => count - 1

/-- Modelled from the spec: the user's session count after an arbitrary
interleaving of atomic gate operations, starting from zero sessions. -/
def runGate (limit : Nat) (ops : List GateOp) : Nat :=
  List.foldl (gateStep limit) 0 ops

/-- A concrete start request used to evaluate the driver at fixed inputs. -/
def req0 : StartRequest :=
  { user_id := 7
    meeting_id := 42
    meeting_url := some "https://meet.example/xyz"
    platform := "google_meet"
    bot_name := some "VexaBot"
    user_token := "tok-1"
    native_meeting_id := "xyz-abc"
    language := some "en"
    task := some "transcribe" }

/-- A concrete start request with every optional parameter absent. -/
def reqNone : StartRequest :=
  { user_id := 7
    meeting_id := 42
    meeting_url := none
    platform := "google_meet"
    bot_name := none
    user_token := ""
    native_meeting_id := "xyz-abc"
    language := none
    task := none }

/-- A dispatch oracle answering success with a concrete dispatched job id. -/
def postOk : List (String × String) → DispatchResult :=
  fun _ => DispatchResult.success
    { DispatchedJobID := some "vexa-bot/dispatch-123", EvaluationID := none }

/-- A detail oracle that raises on every query. -/
def dqRaise : String → DetailFetch := fun _ => DetailFetch.raised "boom"

/-- A concrete job detail: running, one running allocation, full metadata. -/
def jd0 : NomadJobDetail :=
  { Status := some "running"
    Allocations := some [{ ClientStatus := some "running" }]
    Meta := some [("connection_id", "c-77"), ("meeting_id", "42"),
                  ("platform", "google_meet"), ("native_meeting_id", "xyz-abc"),
                  ("bot_name", "VexaBot"), ("user_id", "7")]
    SubmitTime := some "1700000000" }

/-- A detail oracle answering `jd0` with HTTP 200 on every query. -/
def dq0 : String → DetailFetch := fun _ => DetailFetch.success jd0

/-- A concrete jobs-list entry with running status. -/
def job0 : NomadJobListEntry :=
  { ID := some "vexa-bot/dispatch-123", Status := some "running" }

/-- A concrete plan with a limit of two concurrent bots. -/
def plan2 : Plan := { id := 1, name := "pro", max_concurrent_bots := 2, is_active := true }

/- ------------------------------------------------------------------ -/
/- Theorems                                                           -/
/- ------------------------------------------------------------------ -/

/-- Claim C8: the command-channel key is a deterministic function of
`connection_id`, and `get_bot_command_channel c1 = get_bot_command_channel
c2` holds if and only if `c1 = c2` — exactly one logical channel per
connection id. -/
theorem bot_command_channel_injective (c1 c2 : String) :
    get_bot_command_channel c1 = get_bot_command_channel c2 ↔ c1 = c2 := by
  constructor
  · intro h
    have h2 : ("bot_commands:" ++ c1).data = ("bot_commands:" ++ c2).data := by
      simpa [get_bot_command_channel] using congrArg String.data h
    simp only [String.data_append] at h2
    exact String.ext (List.append_cancel_left h2)
  · intro h
    rw [h]

/-- Claim C10: `stop_bot_container` returns `False` for every job id and
issues no outbound call to the backend. -/
theorem stop_returns_false_no_calls (container_id : String) :
    stop_bot_container container_id = (false, []) := rfl

/-- Claim C9: `start_bot_container` is total and its result is either a
pair of present strings (dispatched job id, connection id) or the pair
`(none, none)`; no error kind is distinguishable by the caller. -/
theorem start_total_result_shape (req : StartRequest) (u fb : String)
    (post : List (String × String) → DispatchResult) :
    (∃ a b, (start_bot_container req u fb post).1 = (some a, some b)) ∨
      (start_bot_container req u fb post).1 = (none, none) := by
  cases h : post (buildMeta req u) with
  | success data =>
      refine Or.inl ⟨if pyTruthy (pyOrOpt data.DispatchedJobID data.EvaluationID)
        then (pyOrOpt data.DispatchedJobID data.EvaluationID).getD ""
        else "unknown-" ++ fb, u, ?_⟩
      simp [start_bot_container, h]
  | statusError code body => exact Or.inr (by simp [start_bot_container, h])
  | transportError msg => exact Or.inr (by simp [start_bot_container, h])
  | otherError msg => exact Or.inr (by simp [start_bot_container, h])

/-- Claim C2 counterexample: on a network/timeout failure of the dispatch
call, `start_bot_container` returns `(none, none)` — exactly the value it
returns for an outright HTTP status error — so no error of kind Ambiguous
is surfaced to the caller. -/
theorem start_no_ambiguous_kind_counterexample :
    (start_bot_container req0 "cid-1" "fb-1"
        (fun _ => DispatchResult.transportError "read timeout")).1
      = (none, none) ∧
    (start_bot_container req0 "cid-1" "fb-1"
        (fun _ => DispatchResult.statusError 500 "server error")).1
      = (none, none) :=
  ⟨rfl, rfl⟩

/-- Claim C2 amended: on a network error or timeout of the dispatch call,
`start_bot_container` returns `(none, none)` — the same value as for an
HTTP status error, with no distinguishable error kind — and it issues
exactly one dispatch call, never retrying automatically. -/
theorem start_transport_error_none_no_retry (req : StartRequest)
    (u fb msg : String) (code : Nat) (body : String) :
    start_bot_container req u fb (fun _ => DispatchResult.transportError msg)
      = ((none, none), [NomadCall.dispatchJob (buildMeta req u)]) ∧
    start_bot_container req u fb (fun _ => DispatchResult.statusError code body)
      = ((none, none), [NomadCall.dispatchJob (buildMeta req u)]) :=
  ⟨rfl, rfl⟩

/-- Claim C3 counterexample: `verify_container_running` reports a transient
query failure (a raised transport error) as `false`, the same result it
gives for a 404 "not found" response and for a job that is genuinely not
running. -/
theorem verify_transient_equals_not_found_counterexample :
    verify_container_running (DetailFetch.raised "connect timeout") = false ∧
    verify_container_running (DetailFetch.httpStatus 404) = false ∧
    verify_container_running (DetailFetch.success
      { Status := some "dead", Allocations := some [], Meta := some [],
        SubmitTime := some "0" }) = false := by
  refine ⟨rfl, rfl, ?_⟩
  simp [verify_container_running]

/-- Claim C3 amended: `verify_container_running` returns `false` alike on a
transient query failure, on any non-200 (e.g. not-found) response, and on a
job whose status is not `"running"`; a transient failure is therefore
indistinguishable from "not running". -/
theorem verify_false_on_failure (msg : String) (code : Nat)
    (jd : NomadJobDetail) :
    verify_container_running (DetailFetch.raised msg) = false ∧
    verify_container_running (DetailFetch.httpStatus code) = false ∧
    (jd.Status.getD "" ≠ "running" →
      verify_container_running (DetailFetch.success jd) = false) := by
  refine ⟨rfl, rfl, fun h => ?_⟩
  simp [verify_container_running, h]

/-- Witness for `verify_false_on_failure` at concrete inputs. -/
theorem verify_false_on_failure_witness :
    verify_container_running (DetailFetch.raised "t") = false ∧
    verify_container_running (DetailFetch.httpStatus 404) = false ∧
    verify_container_running (DetailFetch.success
      { Status := some "dead", Allocations := none, Meta := none,
        SubmitTime := none }) = false := by
  obtain ⟨h1, h2, h3⟩ := verify_false_on_failure "t" 404
    { Status := some "dead", Allocations := none, Meta := none,
      SubmitTime := none }
  exact ⟨h1, h2, h3 (by decide)⟩

/-- Claim C4: whenever the jobs listing call fails (status error, transport
error or any other exception), or a per-job detail query raises,
`get_running_bots_status` returns the empty list — the same value it
returns when the user genuinely has zero running bots. -/
theorem get_running_bots_error_empty (uid : Int) (r : JobsResult)
    (dq : String → DetailFetch) (js : List NomadJobListEntry)
    (hfail : r.isFailure = true) (hraise : processJobs uid dq js = none) :
    get_running_bots_status uid r dq = [] ∧
    get_running_bots_status uid (JobsResult.success js) dq = [] ∧
    get_running_bots_status uid (JobsResult.success []) dq = [] := by
  refine ⟨?_, ?_, ?_⟩
  · cases r with
    | success js2 => simp [JobsResult.isFailure] at hfail
    | statusError code => rfl
    | transportError msg => rfl
    | otherError msg => rfl
  · simp [get_running_bots_status, hraise]
  · rfl

/-- Witness for `get_running_bots_error_empty` at concrete inputs: a failed
listing call, a listing whose only job's detail query raises, and an empty
listing all give the empty list. -/
theorem get_running_bots_error_empty_witness :
    get_running_bots_status 3 (JobsResult.transportError "t") dqRaise = [] ∧
    get_running_bots_status 3
      (JobsResult.success [{ ID := some "vexa-bot/x", Status := some "running" }])
      dqRaise = [] ∧
    get_running_bots_status 3 (JobsResult.success []) dqRaise = [] :=
  get_running_bots_error_empty 3 (JobsResult.transportError "t") dqRaise
    [{ ID := some "vexa-bot/x", Status := some "running" }]
    (by decide) (by decide)

/-- Claim C5: `start_bot_container` uses the fresh UUID generated at
dispatch time as the connection id: the dispatched metadata carries exactly
that value under `"connection_id"`, the single dispatch call embeds it, and
on success the returned pair is the backend job id together with that same
fresh value — independent of every request field. -/
theorem start_fresh_connection_id (req : StartRequest) (u fb : String)
    (post : List (String × String) → DispatchResult) :
    ("connection_id", u) ∈ buildMeta req u ∧
    (start_bot_container req u fb post).2
      = [NomadCall.dispatchJob (buildMeta req u)] ∧
    (∀ jid cid, (start_bot_container req u fb post).1 = (some jid, some cid)
      → cid = u) ∧
    (∀ data, post (buildMeta req u) = DispatchResult.success data →
      (start_bot_container req u fb post).1.2 = some u) := by
  refine ⟨by simp [buildMeta], ?_, ?_, ?_⟩
  · cases h : post (buildMeta req u) <;> simp [start_bot_container, h]
  · intro jid cid hres
    cases h : post (buildMeta req u) <;>
      simp [start_bot_container, h] at hres
    exact hres.2.symm
  · intro data h
    simp [start_bot_container, h]

/-- Witness for `start_fresh_connection_id` at concrete inputs. -/
theorem start_fresh_connection_id_witness :
    ("connection_id", "u-fresh") ∈ buildMeta req0 "u-fresh" ∧
    (start_bot_container req0 "u-fresh" "fb" postOk).2
      = [NomadCall.dispatchJob (buildMeta req0 "u-fresh")] ∧
    ("u-fresh" : String) = "u-fresh" ∧
    (start_bot_container req0 "u-fresh" "fb" postOk).1.2 = some "u-fresh" := by
  obtain ⟨h1, h2, h3, h4⟩ := start_fresh_connection_id req0 "u-fresh" "fb" postOk
  refine ⟨h1, h2, h3 "vexa-bot/dispatch-123" "u-fresh" (by decide),
    h4 { DispatchedJobID := some "vexa-bot/dispatch-123", EvaluationID := none }
      (by decide)⟩

/-- Claim C6: the metadata map sent to the dispatch endpoint carries every
launch parameter as a string value, under exactly the ten keys the worker
expects, and each absent optional parameter (`meeting_url`, `bot_name`,
`user_token`, `language`, `task`) is encoded as the empty string rather
than omitted. -/
theorem dispatch_meta_complete (req : StartRequest) (u : String) :
    (buildMeta req u).map Prod.fst =
      ["user_id", "meeting_id", "meeting_url", "platform", "bot_name",
       "user_token", "native_meeting_id", "connection_id", "language",
       "task"] ∧
    (req.meeting_url = none → ("meeting_url", "") ∈ buildMeta req u) ∧
    (req.bot_name = none → ("bot_name", "") ∈ buildMeta req u) ∧
    (req.user_token = "" → ("user_token", "") ∈ buildMeta req u) ∧
    (req.language = none → ("language", "") ∈ buildMeta req u) ∧
    (req.task = none → ("task", "") ∈ buildMeta req u) := by
  refine ⟨by simp [buildMeta], ?_, ?_, ?_, ?_, ?_⟩ <;>
    · intro h
      simp [buildMeta, h, pyOrEmpty, pyOrEmptyStr]

/-- Witness for `dispatch_meta_complete` on a request with every optional
parameter absent. -/
theorem dispatch_meta_complete_witness :
    (buildMeta reqNone "cid-w").map Prod.fst =
      ["user_id", "meeting_id", "meeting_url", "platform", "bot_name",
       "user_token", "native_meeting_id", "connection_id", "language",
       "task"] ∧
    ("meeting_url", "") ∈ buildMeta reqNone "cid-w" ∧
    ("bot_name", "") ∈ buildMeta reqNone "cid-w" ∧
    ("user_token", "") ∈ buildMeta reqNone "cid-w" ∧
    ("language", "") ∈ buildMeta reqNone "cid-w" ∧
    ("task", "") ∈ buildMeta reqNone "cid-w" := by
  obtain ⟨h1, h2, h3, h4, h5, h6⟩ := dispatch_meta_complete reqNone "cid-w"
  exact ⟨h1, h2 (by decide), h3 (by decide), h4 (by decide), h5 (by decide),
    h6 (by decide)⟩

/-- One atomic gate operation keeps the session count within the limit. -/
theorem gateStep_le (limit c : Nat) (op : GateOp) (h : c ≤ limit) :
    gateStep limit c op ≤ limit := by
  cases op with
  | startBot =>
      simp only [gateStep, reserveSlot]
      split
      · rename_i hlt
        simpa using hlt
      · simpa using h
  | release => exact le_trans (Nat.sub_le c 1) h

/-- Any interleaving of atomic gate operations keeps the count within the
limit, from any admissible starting count. -/
theorem gate_foldl_le (limit : Nat) (ops : List GateOp) :
    ∀ c : Nat, c ≤ limit → List.foldl (gateStep limit) c ops ≤ limit := by
  induction ops with
  | nil => intro c h; simpa using h
  | cons op rest ih =>
      intro c h
      exact ih (gateStep limit c op) (gateStep_le limit c op h)

/-- Claim C1: under the spec-modelled Concurrency Gate, for every plan and
every interleaving of atomic start/release operations the user's
pending+running session count never exceeds the plan's
`max_concurrent_bots`; and because check-and-reserve is one atomic step,
when one slot remains the first admission fills the quota and any
subsequent admission is rejected — two concurrent starts cannot both
observe quota as available. -/
theorem gate_quota_invariant (p : Plan) (ops : List GateOp) :
    runGate p.max_concurrent_bots ops ≤ p.max_concurrent_bots ∧
    (∀ c, c + 1 = p.max_concurrent_bots →
      reserveSlot p.max_concurrent_bots c = some p.max_concurrent_bots ∧
      reserveSlot p.max_concurrent_bots p.max_concurrent_bots = none) := by
  constructor
  · exact gate_foldl_le p.max_concurrent_bots ops 0 (Nat.zero_le _)
  · intro c hc
    constructor
    · rw [reserveSlot, if_pos (by omega), hc]
    · rw [reserveSlot, if_neg (by omega)]

/-- Witness for `gate_quota_invariant`: plan limit 2, three concurrent
start attempts — the count stays at most 2, the admission taking the last
slot reaches exactly 2, and the next admission is rejected. -/
theorem gate_quota_invariant_witness :
    runGate plan2.max_concurrent_bots
        [GateOp.startBot, GateOp.startBot, GateOp.startBot]
      ≤ plan2.max_concurrent_bots ∧
    (reserveSlot plan2.max_concurrent_bots 1 = some plan2.max_concurrent_bots ∧
     reserveSlot plan2.max_concurrent_bots plan2.max_concurrent_bots = none) := by
  obtain ⟨h1, h2⟩ := gate_quota_invariant plan2
    [GateOp.startBot, GateOp.startBot, GateOp.startBot]
  exact ⟨h1, h2 1 (by decide)⟩

/-- Every bot reported by the per-job loop comes from a listed job with
status `"running"` whose detail query succeeded with at least one running
allocation, and its fields are built from that backend-stored detail. -/
theorem processJobs_mem_sound (uid : Int) (dq : String → DetailFetch)
    (b : BotInfo) :
    ∀ (jobs : List NomadJobListEntry) (bots : List BotInfo),
      processJobs uid dq jobs = some bots → b ∈ bots →
      ∃ job jd, job ∈ jobs ∧ job.Status.getD "" = "running" ∧
        dq (job.ID.getD "") = DetailFetch.success jd ∧
        runningAllocs jd ≠ [] ∧
        b = mkBotInfo uid (job.ID.getD "") jd := by
  intro jobs
  induction jobs with
  | nil =>
      intro bots h hb
      simp only [processJobs, Option.some.injEq] at h
      subst h
      cases hb
  | cons job rest ih =>
      intro bots h hb
      rw [processJobs] at h
      split at h
      · obtain ⟨j, jd, hj, hrest⟩ := ih bots h hb
        exact ⟨j, jd, List.mem_cons_of_mem _ hj, hrest⟩
      · rename_i hst
        rw [not_ne_iff] at hst
        split at h
        · exact absurd h (by simp)
        · obtain ⟨j, jd, hj, hrest⟩ := ih bots h hb
          exact ⟨j, jd, List.mem_cons_of_mem _ hj, hrest⟩
        · rename_i jd hdq
          split at h
          · obtain ⟨j, jd2, hj, hrest⟩ := ih bots h hb
            exact ⟨j, jd2, List.mem_cons_of_mem _ hj, hrest⟩
          · rename_i hne
            rw [Option.map_eq_some'] at h
            obtain ⟨bots', hbots', hcons⟩ := h
            subst hcons
            rcases List.mem_cons.mp hb with hbeq | hbmem
            · exact ⟨job, jd, List.mem_cons_self _ _, hst, hdq, hne, hbeq⟩
            · obtain ⟨j, jd2, hj, hrest⟩ := ih bots' hbots' hbmem
              exact ⟨j, jd2, List.mem_cons_of_mem _ hj, hrest⟩

/-- Claim C7: every snapshot returned by `get_running_bots_status`
corresponds to a backend-listed job whose status is `"running"` and whose
detail shows at least one allocation with client status `"running"`, and
the snapshot's job id, connection id and launch metadata are built from the
backend-stored job detail (`mkBotInfo`), not from any local session
record. -/
theorem running_snapshot_sound (uid : Int) (r : JobsResult)
    (dq : String → DetailFetch) (b : BotInfo)
    (hb : b ∈ get_running_bots_status uid r dq) :
    ∃ js job jd, r = JobsResult.success js ∧ job ∈ js ∧
      job.Status.getD "" = "running" ∧
      dq (job.ID.getD "") = DetailFetch.success jd ∧
      runningAllocs jd ≠ [] ∧
      b = mkBotInfo uid (job.ID.getD "") jd := by
  cases r with
  | success js =>
      rw [get_running_bots_status] at hb
      cases hpj : processJobs uid dq js with
      | none => rw [hpj] at hb; cases hb
      | some bots =>
          rw [hpj] at hb
          obtain ⟨job, jd, hj, hrest⟩ := processJobs_mem_sound uid dq b js bots hpj hb
          exact ⟨js, job, jd, rfl, hj, hrest⟩
  | statusError code => cases hb
  | transportError msg => cases hb
  | otherError msg => cases hb

/-- Witness for `running_snapshot_sound`: with one running listed job whose
detail is `jd0`, the returned snapshot is exactly the one built from the
backend-stored detail. -/
theorem running_snapshot_sound_witness :
    ∃ js job jd, JobsResult.success [job0] = JobsResult.success js ∧
      job ∈ js ∧ job.Status.getD "" = "running" ∧
      dq0 (job.ID.getD "") = DetailFetch.success jd ∧
      runningAllocs jd ≠ [] ∧
      mkBotInfo 7 "vexa-bot/dispatch-123" jd0
        = mkBotInfo 7 (job.ID.getD "") jd :=
  running_snapshot_sound 7 (JobsResult.success [job0]) dq0
    (mkBotInfo 7 "vexa-bot/dispatch-123" jd0) (by decide)

end Vexa
